import Mathlib

/-!
Shallow embedding of the x16-emulator core (65C02 CPU interpreter and VERA
video coprocessor) and proofs about the spec's claims.

Machine integers are modelled as Nat with explicit reductions:
a uint8 value is reduced mod 256 where the C code converts to uint8, a
uint16 mod 65536, a uint32 mod 2^32; bitwise C operators map to the
corresponding Nat bitwise operators.  Memory and register files are
modelled as total functions Nat to Nat updated with Function.update.
-/

namespace X16

/-! ## CPU state (src/cpu/fake6502.h)

The struct cpu_state fields.  Note that the source declares `ea` with
type uint8_t, so every assignment to it truncates mod 256. -/

structure CpuState where
  pc : Nat
  sp : Nat
  a : Nat
  x : Nat
  y : Nat
  status : Nat
  wai : Nat
  ea : Nat
  clock_ticks : Nat
  instructions : Nat
deriving Repr, DecidableEq

/-- Whole machine: CPU registers plus the externally supplied memory
(the CPU module is parametric over the read6502/write6502 callbacks;
here they are a plain byte store). -/
structure Machine where
  cpu : CpuState
  mem : Nat → Nat

/-- Flag bit constants from fake6502.c. -/
def FLAG_CARRY : Nat := 0x01
def FLAG_ZERO : Nat := 0x02
def FLAG_INTERRUPT : Nat := 0x04
def FLAG_DECIMAL : Nat := 0x08
def FLAG_BREAK : Nat := 0x10
def FLAG_CONSTANT : Nat := 0x20
def FLAG_OVERFLOW : Nat := 0x40
def FLAG_SIGN : Nat := 0x80

def BASE_STACK : Nat := 0x100

/-- read6502 callback: the address is a uint16, the result a uint8. -/
def read6502 (m : Machine) (addr : Nat) : Nat :=
  m.mem (addr % 65536) % 256

/-- write6502 callback: stores one byte. -/
def write6502 (m : Machine) (addr v : Nat) : Machine :=
  { m with mem := Function.update m.mem (addr % 65536) (v % 256) }

/-! ## Flag selector macros (src/cpu/support.h)

select_overflow is embedded exactly as the C compiler parses the macro
`((((R)^(A) & (R)^(M)) & 0x80) >> 1)`: in C the binary & binds tighter
than ^, so the expression is R ^ (A & R) ^ M, not (R^A) & (R^M). -/

def select_carry (A : Nat) : Nat := (A >>> 8) &&& 1

def select_zero (A : Nat) : Nat := (if A = 0 then 1 else 0) <<< 1

def select_overflow (R A M : Nat) : Nat := ((R ^^^ (A &&& R) ^^^ M) &&& 0x80) >>> 1

def select_sign (A : Nat) : Nat := A &&& 0x80

/-! ## Stack and fetch helpers (src/cpu/support.h) -/

/-- push16: store high byte at SP, low byte at (SP-1)&0xFF, SP -= 2
(SP is a uint8, arithmetic wraps mod 256). -/
def push16 (m : Machine) (pushval : Nat) : Machine :=
  let m1 := write6502 m (BASE_STACK + m.cpu.sp % 256) ((pushval >>> 8) &&& 0xFF)
  let m2 := write6502 m1 (BASE_STACK + (m.cpu.sp + 255) % 256) (pushval &&& 0xFF)
  { m2 with cpu := { m2.cpu with sp := (m.cpu.sp + 254) % 256 } }

/-- push8: store at SP, then SP -= 1 (wrap mod 256). -/
def push8 (m : Machine) (pushval : Nat) : Machine :=
  let m1 := write6502 m (BASE_STACK + m.cpu.sp % 256) pushval
  { m1 with cpu := { m1.cpu with sp := (m.cpu.sp + 255) % 256 } }

/-- pull16: read low byte at (SP+1)&0xFF, high at (SP+2)&0xFF, SP += 2. -/
def pull16 (m : Machine) : Nat × Machine :=
  let temp16 := read6502 m (BASE_STACK + (m.cpu.sp + 1) % 256) |||
    (read6502 m (BASE_STACK + (m.cpu.sp + 2) % 256) <<< 8)
  (temp16, { m with cpu := { m.cpu with sp := (m.cpu.sp + 2) % 256 } })

/-- pull8: pre-increment SP, read at the new SP. -/
def pull8 (m : Machine) : Nat × Machine :=
  let sp1 := (m.cpu.sp + 1) % 256
  (read6502 m (BASE_STACK + sp1), { m with cpu := { m.cpu with sp := sp1 } })

/-- read8: fetch the byte at PC and post-increment PC (uint16 wrap). -/
def read8 (m : Machine) : Nat × Machine :=
  (read6502 m m.cpu.pc, { m with cpu := { m.cpu with pc := (m.cpu.pc + 1) % 65536 } })

/-! ## ADC implementations (src/cpu/fake6502.c) -/

/-- adcd: binary-coded-decimal ADC.  Note the source has its flag-update
line commented out, so only the clearflags(Z|C|N|V) takes effect:
clearing Z,C,N,V from the uint8 status is status & 0x3C. -/
def adcd (m : Machine) (addr : Nat) : Machine :=
  let value := read6502 m addr
  let a0 := m.cpu.a + (value &&& 0x0f) + (m.cpu.status &&& FLAG_CARRY)
  let a1 := if 9 < (a0 &&& 0xf) then a0 + 6 else a0
  let a2 := a1 + (value &&& 0xf0)
  let a3 := if 0x90 < (a2 &&& 0xf0) then a2 + 0x60 else a2
  { m with cpu := { m.cpu with
      status := m.cpu.status &&& 0x3C,
      a := a3 % 256 } }

/-- adcx: binary (hexadecimal) ADC.  The 16-bit sum never overflows
uint16 (max 255+255+1), flags are rebuilt with the selector macros. -/
def adcx (m : Machine) (addr : Nat) : Machine :=
  let value := read6502 m addr
  let a16 := m.cpu.a + value + (m.cpu.status &&& FLAG_CARRY)
  let st := m.cpu.status &&& 0x3C
  { m with cpu := { m.cpu with
      status := st ||| select_zero a16 ||| select_carry a16 |||
        select_sign (a16 % 256) ||| select_overflow a16 m.cpu.a value,
      a := a16 % 256 } }

/-! ## BRK / RTI / BBR0 (src/cpu/fake6502.c) -/

/-- brk: push PC+1, push status with the B flag set, set I, clear D,
load PC from the vector at 0xFFFE/F. -/
def brk (m : Machine) : Machine :=
  let m1 := push16 m ((m.cpu.pc + 1) % 65536)
  let m2 := push8 m1 (m1.cpu.status ||| FLAG_BREAK)
  let st := (m2.cpu.status ||| FLAG_INTERRUPT) &&& 0xF7
  { m2 with cpu := { m2.cpu with
      status := st,
      pc := read6502 m2 0xFFFE ||| (read6502 m2 0xFFFF <<< 8) } }

/-- rti: status = pull8() (the pulled byte is restored verbatim,
including whatever B bit was pushed); PC = pull16(). -/
def rti (m : Machine) : Machine :=
  let (st, m1) := pull8 m
  let m2 := { m1 with cpu := { m1.cpu with status := st } }
  let (p, m3) := pull16 m2
  { m3 with cpu := { m3.cpu with pc := p } }

/-- bbr0: branch to CPU.ea when bit 0 of the zero-page value is clear
(the C test is `~value & 0x01`). -/
def bbr0 (m : Machine) (addr : Nat) : Machine :=
  let value := read6502 m addr
  if value &&& 0x01 = 0 then { m with cpu := { m.cpu with pc := m.cpu.ea } } else m

/-! ## Addressing mode zprel (src/cpu/modes.h) -/

/-- Sign extension of a byte, as the C cast (int8_t). -/
def signext8 (v : Nat) : Int :=
  if 128 ≤ v % 256 then (v % 256 : Int) - 256 else (v % 256 : Int)

/-- tick_penalty: 1 when the two addresses lie in different 256-byte pages. -/
def tick_penalty (a1 a2 : Nat) : Nat :=
  if (a1 ^^^ a2) &&& 0xff00 ≠ 0 then 1 else 0

/-- zprel addressing mode: first operand byte is the zero-page address
(returned), the second is a signed relative offset; PC + offset is
assigned to CPU.ea, which the header declares as uint8_t, so the value
is truncated mod 256.  The page-cross penalty compares PC with the
(truncated) ea. -/
def zprel (m : Machine) (penalty : Nat) : Nat × Machine :=
  let (value, m1) := read8 m
  let (rel, m2) := read8 m1
  let ea1 := ((((m2.cpu.pc : Int) + signext8 rel) % 65536) % 256).toNat
  let m3 := { m2 with cpu := { m2.cpu with
      ea := ea1,
      clock_ticks := m2.cpu.clock_ticks + (penalty &&& tick_penalty m2.cpu.pc ea1) } }
  (value, m3)

/-! ## Instruction step (src/cpu/fake6502.c)

Only the opcodes exercised by the end-to-end scenario claims are
embedded: 0x00 (BRK, implied, 7 ticks), 0x40 (RTI, implied, 6 ticks)
and 0x0F (BBR0, zprel with penalty bit, 2 base ticks).  Every fetch in
the scenarios below hits one of these cases. -/
def execOpcode (op : Nat) (m : Machine) : Machine :=
  if op = 0x00 then
    let m1 := brk m
    { m1 with cpu := { m1.cpu with clock_ticks := m1.cpu.clock_ticks + 7 } }
  else if op = 0x40 then
    let m1 := rti m
    { m1 with cpu := { m1.cpu with clock_ticks := m1.cpu.clock_ticks + 6 } }
  else if op = 0x0F then
    let (addr, m1) := zprel m 1
    let m2 := bbr0 m1 addr
    { m2 with cpu := { m2.cpu with clock_ticks := m2.cpu.clock_ticks + 2 } }
  else m

/-- step6502: if waiting for interrupt, burn one tick; otherwise fetch,
dispatch, and count the instruction. -/
def step6502 (m : Machine) : Machine :=
  if m.cpu.wai ≠ 0 then
    { m with cpu := { m.cpu with clock_ticks := m.cpu.clock_ticks + 1 } }
  else
    let (opcode, m1) := read8 m
    let m2 := execOpcode opcode m1
    { m2 with cpu := { m2.cpu with instructions := m2.cpu.instructions + 1 } }

end X16

namespace X16

/-! ## Concrete scenario machines -/

/-- Memory for the BRK/RTI scenario of the spec: BRK at 0x0200, RTI at
0x1234, IRQ/BRK vector 0xFFFE/F = 0x1234. -/
def memBrkRti : Nat → Nat := fun a =>
  if a = 0x0200 then 0x00 else if a = 0x1234 then 0x40 else
  if a = 0xFFFE then 0x34 else if a = 0xFFFF then 0x12 else 0

/-- Initial machine for the BRK/RTI scenario: PC = 0x0200, SP = 0xFF,
P = 0x24. -/
def machBrkRti : Machine :=
  { cpu := { pc := 0x0200, sp := 0xFF, a := 0, x := 0, y := 0, status := 0x24,
             wai := 0, ea := 0, clock_ticks := 0, instructions := 0 },
    mem := memBrkRti }

/-- Memory for the BBR0 scenario: BBR0 $42, +0x10 at 0x0200; the
zero-page byte 0x42 is 0 so the branch is taken. -/
def memBbr : Nat → Nat := fun a =>
  if a = 0x0200 then 0x0F else if a = 0x0201 then 0x42 else
  if a = 0x0202 then 0x10 else 0

/-- Initial machine for the BBR0 scenario. -/
def machBbr : Machine :=
  { cpu := { pc := 0x0200, sp := 0xFF, a := 0, x := 0, y := 0, status := 0x24,
             wai := 0, ea := 0, clock_ticks := 0, instructions := 0 },
    mem := memBbr }

/-- Machine for the binary-ADC divergence input: A = 0x01, carry clear
(status 0x20), operand byte 0xFF everywhere. -/
def machAdcx : Machine :=
  { cpu := { pc := 0, sp := 0xFF, a := 0x01, x := 0, y := 0, status := 0x20,
             wai := 0, ea := 0, clock_ticks := 0, instructions := 0 },
    mem := fun _ => 0xFF }

/-- Machine for the decimal-ADC divergence input: A = 0x99, D set,
carry clear (status 0x28), operand byte 0x01 everywhere. -/
def machAdcd : Machine :=
  { cpu := { pc := 0, sp := 0xFF, a := 0x99, x := 0, y := 0, status := 0x28,
             wai := 0, ea := 0, clock_ticks := 0, instructions := 0 },
    mem := fun _ => 0x01 }

end X16

namespace X16

/-! ## Stack round-trip sequences -/

/-- Push a list of bytes with push8, first element first. -/
def pushMany (m : Machine) (L : List Nat) : Machine := L.foldl push8 m

/-- Pull n bytes with pull8; the first pulled byte is the head. -/
def pullMany : Nat → Machine → List Nat × Machine
  | 0, m => ([], m)
  | n+1, m =>
    let (v, m1) := pull8 m
    let (vs, m2) := pullMany n m1
    (v :: vs, m2)

end X16

namespace X16

/-- Plain machine used to instantiate stack theorems: SP = 0xFF, zeroed
registers and memory. -/
def machStack : Machine :=
  { cpu := { pc := 0, sp := 0xFF, a := 0, x := 0, y := 0, status := 0x24,
             wai := 0, ea := 0, clock_ticks := 0, instructions := 0 },
    mem := fun _ => 0 }

end X16

namespace X16

/-! ## VERA video coprocessor (src/video.c)

The embedded state covers VRAM, its 4/2/1 bpp shadow expansions, the
palette and sprite-descriptor mirrors, and the I/O register interface.
The PSG, PCM and SPI devices live in separate modules outside src/, so
PSG register writes are modelled as an event log and the PCM FIFO flag
as an opaque boolean.  Derived rendering caches (layer properties,
layer/sprite backbuffers) are not part of this state; the prerender and
budget logic the sprite claims need is embedded separately below. -/

def ADDR_PSG_START : Nat := 0x1F9C0
def ADDR_PSG_END : Nat := 0x1FA00
def ADDR_PALETTE_START : Nat := 0x1FA00
def ADDR_PALETTE_END : Nat := 0x1FC00
def ADDR_SPRDATA_START : Nat := 0x1FC00
def ADDR_SPRDATA_END : Nat := 0x20000

/-- The default_palette table of video.c: 256 12-bit colors. -/
def defaultPalette : List Nat := [
  0x000, 0xfff, 0x800, 0xafe, 0xc4c, 0x0c5, 0x00a, 0xee7, 0xd85, 0x640, 0xf77, 0x333, 0x777, 0xaf6, 0x08f, 0xbbb,
  0x000, 0x111, 0x222, 0x333, 0x444, 0x555, 0x666, 0x777, 0x888, 0x999, 0xaaa, 0xbbb, 0xccc, 0xddd, 0xeee, 0xfff,
  0x211, 0x433, 0x644, 0x866, 0xa88, 0xc99, 0xfbb, 0x211, 0x422, 0x633, 0x844, 0xa55, 0xc66, 0xf77, 0x200, 0x411,
  0x611, 0x822, 0xa22, 0xc33, 0xf33, 0x200, 0x400, 0x600, 0x800, 0xa00, 0xc00, 0xf00, 0x221, 0x443, 0x664, 0x886,
  0xaa8, 0xcc9, 0xfeb, 0x211, 0x432, 0x653, 0x874, 0xa95, 0xcb6, 0xfd7, 0x210, 0x431, 0x651, 0x862, 0xa82, 0xca3,
  0xfc3, 0x210, 0x430, 0x640, 0x860, 0xa80, 0xc90, 0xfb0, 0x121, 0x343, 0x564, 0x786, 0x9a8, 0xbc9, 0xdfb, 0x121,
  0x342, 0x463, 0x684, 0x8a5, 0x9c6, 0xbf7, 0x120, 0x241, 0x461, 0x582, 0x6a2, 0x8c3, 0x9f3, 0x120, 0x240, 0x360,
  0x480, 0x5a0, 0x6c0, 0x7f0, 0x121, 0x343, 0x465, 0x686, 0x8a8, 0x9ca, 0xbfc, 0x121, 0x242, 0x364, 0x485, 0x5a6,
  0x6c8, 0x7f9, 0x020, 0x141, 0x162, 0x283, 0x2a4, 0x3c5, 0x3f6, 0x020, 0x041, 0x061, 0x082, 0x0a2, 0x0c3, 0x0f3,
  0x122, 0x344, 0x466, 0x688, 0x8aa, 0x9cc, 0xbff, 0x122, 0x244, 0x366, 0x488, 0x5aa, 0x6cc, 0x7ff, 0x022, 0x144,
  0x166, 0x288, 0x2aa, 0x3cc, 0x3ff, 0x022, 0x044, 0x066, 0x088, 0x0aa, 0x0cc, 0x0ff, 0x112, 0x334, 0x456, 0x668,
  0x88a, 0x9ac, 0xbcf, 0x112, 0x224, 0x346, 0x458, 0x56a, 0x68c, 0x79f, 0x002, 0x114, 0x126, 0x238, 0x24a, 0x35c,
  0x36f, 0x002, 0x014, 0x016, 0x028, 0x02a, 0x03c, 0x03f, 0x112, 0x334, 0x546, 0x768, 0x98a, 0xb9c, 0xdbf, 0x112,
  0x324, 0x436, 0x648, 0x85a, 0x96c, 0xb7f, 0x102, 0x214, 0x416, 0x528, 0x62a, 0x83c, 0x93f, 0x102, 0x204, 0x306,
  0x408, 0x50a, 0x60c, 0x70f, 0x212, 0x434, 0x646, 0x868, 0xa8a, 0xc9c, 0xfbe, 0x211, 0x423, 0x635, 0x847, 0xa59,
  0xc6b, 0xf7d, 0x201, 0x413, 0x615, 0x826, 0xa28, 0xc3a, 0xf3c, 0x201, 0x403, 0x604, 0x806, 0xa08, 0xc09, 0xf0b
]

structure VideoState where
  vram : Nat → Nat
  vram4bpp : Nat → Nat
  vram2bpp : Nat → Nat
  vram1bpp : Nat → Nat
  palette : Nat → Nat
  sprite_data : Nat → Nat
  psgWrites : List (Nat × Nat)
  paletteDirty : Bool
  io_addr : Nat → Nat
  io_rddata : Nat → Nat
  io_inc : Nat → Nat
  io_addrsel : Nat
  io_dcsel : Nat
  ien : Nat
  isr : Nat
  irq_line : Nat
  composer : Nat → Nat
  reg_layer : Nat → Nat
  pcmFifoAlmostEmpty : Bool

/-! Shadow expansion (expand_4bpp_data / expand_2bpp_data /
expand_1bpp_data).  The whole-buffer form used by video_reset is given
as a pointwise function of the destination index; the two-byte /
four-byte / eight-byte forms used by video_space_write are given as
point updates at the written cell. -/

/-- expand_4bpp_data over a whole buffer: dst[2k] = src[k] >> 4,
dst[2k+1] = src[k] & 0xf. -/
def expand4All (src : Nat → Nat) : Nat → Nat := fun i =>
  if i % 2 = 0 then src (i / 2) >>> 4 else src (i / 2) &&& 0xf

/-- expand_2bpp_data over a whole buffer: dst[4k] = src[k] >> 6,
dst[4k+j] = (src[k] >> 2*(3-j)) & 0x3. -/
def expand2All (src : Nat → Nat) : Nat → Nat := fun i =>
  if i % 4 = 0 then src (i / 4) >>> 6
  else (src (i / 4) >>> (2 * (3 - i % 4))) &&& 0x3

/-- expand_1bpp_data over a whole buffer: dst[8k] = src[k] >> 7,
dst[8k+j] = (src[k] >> (7-j)) & 0x1. -/
def expand1All (src : Nat → Nat) : Nat → Nat := fun i =>
  if i % 8 = 0 then src (i / 8) >>> 7
  else (src (i / 8) >>> (7 - i % 8)) &&& 0x1

/-- expand_4bpp_data(dst + 2w, src + w, 2): the two shadow bytes of
cell w are rewritten from src[w]. -/
def expand4At (dst : Nat → Nat) (src : Nat → Nat) (w : Nat) : Nat → Nat :=
  Function.update (Function.update dst (2*w) (src w >>> 4)) (2*w+1) (src w &&& 0xf)

/-- expand_2bpp_data(dst + 4w, src + w, 4). -/
def expand2At (dst : Nat → Nat) (src : Nat → Nat) (w : Nat) : Nat → Nat :=
  Function.update (Function.update (Function.update (Function.update dst
    (4*w) (src w >>> 6))
    (4*w+1) ((src w >>> 4) &&& 0x3))
    (4*w+2) ((src w >>> 2) &&& 0x3))
    (4*w+3) (src w &&& 0x3)

/-- expand_1bpp_data(dst + 8w, src + w, 8). -/
def expand1At (dst : Nat → Nat) (src : Nat → Nat) (w : Nat) : Nat → Nat :=
  Function.update (Function.update (Function.update (Function.update
  (Function.update (Function.update (Function.update (Function.update dst
    (8*w) (src w >>> 7))
    (8*w+1) ((src w >>> 6) &&& 0x1))
    (8*w+2) ((src w >>> 5) &&& 0x1))
    (8*w+3) ((src w >>> 4) &&& 0x1))
    (8*w+4) ((src w >>> 3) &&& 0x1))
    (8*w+5) ((src w >>> 2) &&& 0x1))
    (8*w+6) ((src w >>> 1) &&& 0x1))
    (8*w+7) (src w &&& 0x1)

/-- video_space_read: vram at address & 0x1FFFF. -/
def videoSpaceRead (s : VideoState) (addr : Nat) : Nat :=
  s.vram (addr % 0x20000)

/-- video_space_write: always stores to vram at the wrapped address
(address & 0x1FFFF) and re-expands the three shadow cells; then mirrors
into the PSG / palette / sprite-data structures when the unmasked
address lies in their windows.  The trailing poke_layer_map /
poke_layer_tile / poke_sprite calls and refresh_sprite_properties only
refresh derived backbuffer caches, which are outside this state. -/
def videoSpaceWrite (s : VideoState) (address v0 : Nat) : VideoState :=
  let v := v0 % 256
  let w := address % 0x20000
  let vram1 := Function.update s.vram w v
  let s1 := { s with
    vram := vram1,
    vram4bpp := expand4At s.vram4bpp vram1 w,
    vram2bpp := expand2At s.vram2bpp vram1 w,
    vram1bpp := expand1At s.vram1bpp vram1 w }
  if ADDR_PSG_START ≤ address ∧ address < ADDR_PSG_END then
    { s1 with psgWrites := (address &&& 0x3f, v) :: s1.psgWrites }
  else if ADDR_PALETTE_START ≤ address ∧ address < ADDR_PALETTE_END then
    { s1 with palette := Function.update s1.palette (address &&& 0x1ff) v,
              paletteDirty := true }
  else if ADDR_SPRDATA_START ≤ address ∧ address < ADDR_SPRDATA_END then
    let sidx := ((address >>> 3) &&& 0x7f) * 8 + (address &&& 0x7)
    { s1 with sprite_data := Function.update s1.sprite_data sidx v }
  else s1

/-- video_reset.  The source fills VRAM with rand() bytes; the random
stream is a parameter r here, truncated to bytes as the uint8 store
does; the shadows are the full expansions of the fresh VRAM, the
palette is the default palette split into little-endian byte pairs,
and refresh_palette leaves the dirty flag clear. -/
def videoReset (r : Nat → Nat) : VideoState :=
  let vr : Nat → Nat := fun i => r i % 256
  { vram := vr
    vram4bpp := expand4All vr
    vram2bpp := expand2All vr
    vram1bpp := expand1All vr
    palette := fun i =>
      if i % 2 = 0 then defaultPalette.getD (i / 2) 0 &&& 0xff
      else defaultPalette.getD (i / 2) 0 >>> 8
    sprite_data := fun _ => 0
    psgWrites := []
    paletteDirty := false
    io_addr := fun _ => 0
    io_rddata := fun _ => 0
    io_inc := fun _ => 0
    io_addrsel := 0
    io_dcsel := 0
    ien := 0
    isr := 0
    irq_line := 0
    composer := fun i =>
      if i = 1 then 128 else if i = 2 then 128
      else if i = 5 then 160 else if i = 7 then 240 else 0
    reg_layer := fun _ => 0
    pcmFifoAlmostEmpty := false }

/-- The 32-entry signed autoincrement table. -/
def increments (i : Nat) : Int :=
  match i with
  | 0 => 0 | 1 => 0 | 2 => 1 | 3 => -1 | 4 => 2 | 5 => -2 | 6 => 4 | 7 => -4
  | 8 => 8 | 9 => -8 | 10 => 16 | 11 => -16 | 12 => 32 | 13 => -32
  | 14 => 64 | 15 => -64 | 16 => 128 | 17 => -128 | 18 => 256 | 19 => -256
  | 20 => 512 | 21 => -512 | 22 => 40 | 23 => -40 | 24 => 80 | 25 => -80
  | 26 => 160 | 27 => -160 | 28 => 320 | 29 => -320 | 30 => 640 | _ => -640

/-- get_and_inc_address: return the cursor, then advance it by the
selected increment (uint32 wraparound). -/
def getAndIncAddress (s : VideoState) (sel : Nat) : Nat × VideoState :=
  let address := s.io_addr sel
  let a1 := (((s.io_addr sel : Int) + increments (s.io_inc sel)) % 4294967296).toNat
  (address, { s with io_addr := Function.update s.io_addr sel a1 })

/-- video_read.  Registers 0x0D-0x1A return the raw layer register
shadows; PCM and SPI registers (0x1B-0x1F) belong to external modules
and are returned as the source's default 0 path.  A non-debug data-port
read returns the prefetched byte, advances the cursor and refetches. -/
def videoRead (s : VideoState) (reg : Nat) (debugOn : Bool) : Nat × VideoState :=
  let r := reg &&& 0x1F
  if r = 0 then (s.io_addr s.io_addrsel &&& 0xff, s)
  else if r = 1 then ((s.io_addr s.io_addrsel >>> 8) &&& 0xff, s)
  else if r = 2 then ((s.io_addr s.io_addrsel >>> 16) ||| (s.io_inc s.io_addrsel <<< 3), s)
  else if r = 3 ∨ r = 4 then
    let sel := r - 3
    if debugOn then (s.io_rddata sel, s)
    else
      let (_, s1) := getAndIncAddress s sel
      let value := s1.io_rddata sel
      let fetched := videoSpaceRead s1 (s1.io_addr sel)
      let s2 := { s1 with io_rddata := Function.update s1.io_rddata sel fetched }
      (value, s2)
  else if r = 5 then ((s.io_dcsel <<< 1) ||| s.io_addrsel, s)
  else if r = 6 then (((s.irq_line &&& 0x100) >>> 1) ||| (s.ien &&& 0xF), s)
  else if r = 7 then (s.isr ||| (if s.pcmFifoAlmostEmpty then 8 else 0), s)
  else if r = 8 then (s.irq_line &&& 0xFF, s)
  else if 9 ≤ r ∧ r ≤ 0xC then
    (s.composer (r - 9 + (if s.io_dcsel ≠ 0 then 4 else 0)), s)
  else if 0x0D ≤ r ∧ r ≤ 0x13 then (s.reg_layer (r - 0x0D), s)
  else if 0x14 ≤ r ∧ r ≤ 0x1A then (s.reg_layer (7 + (r - 0x14)), s)
  else (0, s)

/-- video_write.  Registers 0x09-0x0C store into the composer shadow
(the enable-flag and clock-ratio side effects of composer register 0
configure the renderer, which is outside this state); 0x0D-0x1A store
into the raw layer register shadows (the dirty-flag and backbuffer
invalidation side effects refresh derived caches); 0x1B-0x1F go to the
external PCM/SPI modules.  A reset via bit 7 of register 5 refills VRAM
from rand(); that stream is modelled as the current VRAM contents. -/
def videoWrite (s : VideoState) (reg v0 : Nat) : VideoState :=
  let v := v0 % 256
  let r := reg &&& 0x1F
  if r = 0 then
    let a := (s.io_addr s.io_addrsel &&& 0x1ff00) ||| v
    let s1 := { s with io_addr := Function.update s.io_addr s.io_addrsel a }
    { s1 with io_rddata := Function.update s1.io_rddata s.io_addrsel (videoSpaceRead s1 a) }
  else if r = 1 then
    let a := (s.io_addr s.io_addrsel &&& 0x100ff) ||| (v <<< 8)
    let s1 := { s with io_addr := Function.update s.io_addr s.io_addrsel a }
    { s1 with io_rddata := Function.update s1.io_rddata s.io_addrsel (videoSpaceRead s1 a) }
  else if r = 2 then
    let a := (s.io_addr s.io_addrsel &&& 0x0ffff) ||| ((v &&& 0x1) <<< 16)
    let s1 := { s with
      io_addr := Function.update s.io_addr s.io_addrsel a,
      io_inc := Function.update s.io_inc s.io_addrsel (v >>> 3) }
    { s1 with io_rddata := Function.update s1.io_rddata s.io_addrsel (videoSpaceRead s1 a) }
  else if r = 3 ∨ r = 4 then
    let sel := r - 3
    let (address, s1) := getAndIncAddress s sel
    let s2 := videoSpaceWrite s1 address v
    let fetched := videoSpaceRead s2 (s2.io_addr sel)
    { s2 with io_rddata := Function.update s2.io_rddata sel fetched }
  else if r = 5 then
    let s1 := if v &&& 0x80 ≠ 0 then videoReset s.vram else s
    { s1 with io_dcsel := (v >>> 1) &&& 1, io_addrsel := v &&& 1 }
  else if r = 6 then
    { s with irq_line := (s.irq_line &&& 0xFF) ||| ((v >>> 7) <<< 8), ien := v &&& 0xF }
  else if r = 7 then
    { s with isr := s.isr &&& (v ^^^ 0xff) }
  else if r = 8 then
    { s with irq_line := (s.irq_line &&& 0x100) ||| v }
  else if 9 ≤ r ∧ r ≤ 0xC then
    let cidx := r - 9 + (if s.io_dcsel ≠ 0 then 4 else 0)
    { s with composer := Function.update s.composer cidx v }
  else if 0x0D ≤ r ∧ r ≤ 0x13 then
    { s with reg_layer := Function.update s.reg_layer (r - 0x0D) v }
  else if 0x14 ≤ r ∧ r ≤ 0x1A then
    { s with reg_layer := Function.update s.reg_layer (7 + (r - 0x14)) v }
  else s

end X16

namespace X16

/-! ## Data-port autoincrement scenario (src/video.c registers 0-4) -/

/-- C8 setup: a reset video state whose VRAM holds vram, after writing
register 0 = 0x00, register 1 = 0x10 (cursor address 0x1000) and
register 2 = 0x10 (address bit 16 = 0, increment code 2 = +1). -/
def autoincSetup (vram : Nat → Nat) : VideoState :=
  videoWrite (videoWrite (videoWrite
    { videoReset (fun _ => 0) with vram := vram } 0 0x00) 1 0x10) 2 0x10

/-- One non-debug read of data port 0 (register 3): resulting state. -/
def dataReadStep (s : VideoState) : VideoState := (videoRead s 3 false).2

/-- One non-debug read of data port 0 (register 3): returned byte. -/
def dataReadVal (s : VideoState) : Nat := (videoRead s 3 false).1

end X16

namespace X16

/-! ## Memory bus (src/memory.c)

The decode tables memmap_table_hi / memmap_table_io are built once by
build_memory_map; here they are given directly as the functions the
filled arrays compute.  The numeric codes are the MEMMAP_* constants.
The YM/VIA/emulator-control devices live outside the core (or keep
only logging/latch state), so their writes are modelled as event logs;
reads are not needed by the claims. -/

/-- memory_map_hi after build_memory_map: direct RAM below 0x9F,
I/O page at 0x9F, banked RAM 0xA0-0xBF, banked ROM 0xC0-0xFF. -/
def memory_map_hi (hb : Nat) : Nat :=
  if hb ≤ 0x9e then 1 else if hb = 0x9f then 2
  else if hb ≤ 0xbf then 10 else 11

/-- memory_map_io after build_memory_map (sub-decode of the low byte of
an I/O-page address). -/
def memory_map_io (lb : Nat) : Nat :=
  if lb ≤ 0x1f then 2 else if lb ≤ 0x3f then 3 else if lb ≤ 0x5f then 4
  else if lb ≤ 0x6f then 5 else if lb ≤ 0x7f then 6 else if lb ≤ 0x9f then 7
  else if lb ≤ 0xaf then 8 else if lb ≤ 0xbf then 9
  else if lb ≤ 0xdf then 0 else 2

structure Bus where
  RAM : Nat → Nat
  ROM : Nat → Nat
  ram_bank : Nat
  num_ram_banks : Nat
  video : VideoState
  ymWrites : List (Nat × Nat)
  viaWrites : List (Nat × Nat)
  emuWrites : List (Nat × Nat)

/-- ram_write: banked RAM store, RAM[(effective_ram_bank << 13) + address]. -/
def ram_write (b : Bus) (addr v : Nat) : Bus :=
  let idx := ((b.ram_bank % b.num_ram_banks) <<< 13) + addr
  { b with RAM := Function.update b.RAM idx v }

/-- io_write: I/O page sub-dispatch.  Sound (YM latch), VIA1/2 and
emulator-control writes go to external modules and are logged; LCD,
RTC and mouse writes are no-ops (TODO stubs in the source), as is the
MEMMAP_NULL slot. -/
def io_write (b : Bus) (addr v : Nat) : Bus :=
  let t := memory_map_io (addr &&& 0xff)
  if t = 2 then { b with ymWrites := (addr &&& 0x1f, v) :: b.ymWrites }
  else if t = 3 then { b with video := videoWrite b.video (addr &&& 0x1f) v }
  else if t = 5 then { b with viaWrites := (addr &&& 0xf, v) :: b.viaWrites }
  else if t = 6 then { b with viaWrites := (addr &&& 0xf, v) :: b.viaWrites }
  else if t = 9 then { b with emuWrites := (addr &&& 0xf, v) :: b.emuWrites }
  else b

/-- write6502 on the bus: dispatch on the address high byte; writes to
the ROM window (code 11) and unmapped slots fall through unchanged. -/
def busWrite6502 (b : Bus) (addr0 v0 : Nat) : Bus :=
  let addr := addr0 % 65536
  let v := v0 % 256
  let t := memory_map_hi (addr >>> 8)
  if t = 1 then { b with RAM := Function.update b.RAM addr v }
  else if t = 2 then io_write b addr v
  else if t = 10 then ram_write b addr v
  else b

/-- A concrete bus used to instantiate the theorems. -/
def bus0 : Bus :=
  { RAM := fun _ => 0, ROM := fun _ => 0, ram_bank := 0, num_ram_banks := 16,
    video := videoReset (fun _ => 0),
    ymWrites := [], viaWrites := [], emuWrites := [] }

/-! ## Shadow-VRAM consistency (C7) -/

/-- The shadow invariant: VRAM holds bytes, and at every address the
two 4bpp shadow bytes, four 2bpp shadow bytes and eight 1bpp shadow
bytes are the nibble/crumb/bit unpacking of the VRAM byte, most
significant field first. -/
def ShadowInv (s : VideoState) : Prop :=
  ∀ a : Nat,
    s.vram a < 256 ∧
    s.vram4bpp (2*a) = s.vram a >>> 4 ∧
    s.vram4bpp (2*a+1) = s.vram a &&& 0xf ∧
    s.vram2bpp (4*a) = s.vram a >>> 6 ∧
    s.vram2bpp (4*a+1) = (s.vram a >>> 4) &&& 0x3 ∧
    s.vram2bpp (4*a+2) = (s.vram a >>> 2) &&& 0x3 ∧
    s.vram2bpp (4*a+3) = s.vram a &&& 0x3 ∧
    s.vram1bpp (8*a) = s.vram a >>> 7 ∧
    s.vram1bpp (8*a+1) = (s.vram a >>> 6) &&& 0x1 ∧
    s.vram1bpp (8*a+2) = (s.vram a >>> 5) &&& 0x1 ∧
    s.vram1bpp (8*a+3) = (s.vram a >>> 4) &&& 0x1 ∧
    s.vram1bpp (8*a+4) = (s.vram a >>> 3) &&& 0x1 ∧
    s.vram1bpp (8*a+5) = (s.vram a >>> 2) &&& 0x1 ∧
    s.vram1bpp (8*a+6) = (s.vram a >>> 1) &&& 0x1 ∧
    s.vram1bpp (8*a+7) = s.vram a &&& 0x1

end X16

namespace X16

/-! ## Sprite line rendering under the shared budget (src/video.c)

Embeds prerender_sprite_line's cost accounting and the per-sprite body
of render_sprite_line_fast.  A sprite's derived properties
(refresh_sprite_properties) are carried as a record; the prerendered
row backbuffer and the cached per-row cost are functions.  The line
buffers sprite_line_col / _z / _mask / _collisions are byte arrays,
modelled as functions; the uint8 store of col truncates mod 256. -/

structure SpriteProps where
  sprite_zdepth : Nat
  sprite_collision_mask : Nat
  sprite_x : Int
  sprite_y : Int
  sprite_width_log2 : Nat
  sprite_width : Nat
  sprite_height : Nat
  color_mode : Nat
  palette_offset : Nat
  sprite_backbuffer : Nat → Nat
  sprite_line_cost : Nat → Nat

structure SpriteLine where
  col : Nat → Nat
  z : Nat → Nat
  mask : Nat → Nat
  colls : Nat → Nat

/-- line_x = x + sprite_x computed in uint16 (sprite_x is an int16
that may be negative after the wrap fixup). -/
def lineXof (p : SpriteProps) (x : Nat) : Nat :=
  (((x : Int) + p.sprite_x) % 65536).toNat

/-- bitmap_data[x]: the prerendered row byte at column x of row e. -/
def spritePixel (p : SpriteProps) (e x : Nat) : Nat :=
  p.sprite_backbuffer ((e <<< p.sprite_width_log2) + x)

/-- The body shared by both branches for one opaque pixel: record the
collision overlap (against the old mask), or in the collision mask,
and write color and z when this sprite's z-depth wins. -/
def drawPixel (p : SpriteProps) (ls : SpriteLine) (lineX color : Nat) : SpriteLine :=
  if 0 < color then
    let colls1 := Function.update ls.colls lineX
      (ls.colls lineX ||| (ls.mask lineX &&& p.sprite_collision_mask))
    let mask1 := Function.update ls.mask lineX
      (ls.mask lineX ||| p.sprite_collision_mask)
    if ls.z lineX < p.sprite_zdepth then
      { col := Function.update ls.col lineX ((color + p.palette_offset) % 256),
        z := Function.update ls.z lineX p.sprite_zdepth,
        mask := mask1, colls := colls1 }
    else { ls with mask := mask1, colls := colls1 }
  else ls

/-- Per-pixel budget cost: one clock per rendered pixel plus one for
each fetched 32 bits: `(x & penalty_mask) ? 1 : 2` with
penalty_mask = 7 >> color_mode. -/
def pixelCost (cm x : Nat) : Nat :=
  if x &&& (7 >>> cm) ≠ 0 then 1 else 2

/-- prerender_sprite_line's cached per-row cost: one clock for the
lookup plus the per-pixel costs of the whole row. -/
def spriteLineCost (cm w : Nat) : Nat :=
  1 + ((List.range w).map (pixelCost cm)).sum

/-- The x-loop of the branch taken when the cached cost exceeds the
budget: every in-range pixel is processed, no budget bookkeeping. -/
def spriteFullLoop (p : SpriteProps) (e xmax : Nat) :
    List Nat → SpriteLine → SpriteLine
  | [], ls => ls
  | x :: xs, ls =>
    let lx := lineXof p x
    if xmax < lx then spriteFullLoop p e xmax xs ls
    else spriteFullLoop p e xmax xs (drawPixel p ls lx (spritePixel p e x))

/-- The x-loop of the other branch: decrement the budget per pixel and
break (before drawing the pixel) once it reaches zero. -/
def spriteBudgetLoop (p : SpriteProps) (e xmax : Nat) :
    List Nat → SpriteLine → Int → SpriteLine × Int
  | [], ls, b => (ls, b)
  | x :: xs, ls, b =>
    let lx := lineXof p x
    if xmax < lx then spriteBudgetLoop p e xmax xs ls b
    else
      let b1 := b - pixelCost p.color_mode x
      if b1 ≤ 0 then (ls, b1)
      else spriteBudgetLoop p e xmax xs
        (drawPixel p ls lx (spritePixel p e x)) b1

/-- One iteration of render_sprite_line_fast's sprite loop: skip when
z-depth is 0 or the line is outside the sprite; then either render the
whole row and subtract the cached cost (cost greater than the budget),
or take one clock for the lookup and track the budget per pixel. -/
def renderSpriteFastOne (y xmax : Nat) (st : SpriteLine × Int)
    (p : SpriteProps) : SpriteLine × Int :=
  if p.sprite_zdepth = 0 then st
  else if (y : Int) < p.sprite_y ∨ p.sprite_y + (p.sprite_height : Int) ≤ (y : Int) then st
  else
    let e := ((y : Int) - p.sprite_y).toNat
    if st.2 < (p.sprite_line_cost e : Int) then
      (spriteFullLoop p e xmax (List.range p.sprite_width) st.1,
       st.2 - p.sprite_line_cost e)
    else
      spriteBudgetLoop p e xmax (List.range p.sprite_width) st.1 (st.2 - 1)

/-- The cleared line buffers at the start of render_sprite_line_fast. -/
def zeroSpriteLine : SpriteLine :=
  { col := fun _ => 0, z := fun _ => 0, mask := fun _ => 0, colls := fun _ => 0 }

/-- render_sprite_line_fast's sprite pass: fold the per-sprite body
over the sprite slots with the shared budget of 800 + 1 clocks.  The
trailing horizontal-scale resampling pass (which also folds the
per-line collisions into sprite_collisions) is not modelled. -/
def renderSpriteLineFast (y hsize hscale : Nat) (sprites : List SpriteProps) :
    SpriteLine × Int :=
  let xmax := ((hsize - 1) * hscale) >>> 7
  sprites.foldl (renderSpriteFastOne y xmax) (zeroSpriteLine, 800 + 1)

/-- The per-line cost as the claim words it: 1 for the lookup, one
tick per pixel, and one extra tick every 4 pixels in 4bpp mode
(color_mode 0) or every 8 pixels in 8bpp mode (color_mode 1). -/
def spriteLineCostClaim (cm w : Nat) : Nat :=
  1 + w + ((List.range w).filter (fun sx => sx % (if cm = 0 then 4 else 8) = 0)).length

/-- A concrete 4bpp sprite, 8 by 8, fully opaque, z-depth 3, whose
cached row cost is 100. -/
def spriteCex : SpriteProps :=
  { sprite_zdepth := 3, sprite_collision_mask := 0,
    sprite_x := 0, sprite_y := 0, sprite_width_log2 := 3, sprite_width := 8,
    sprite_height := 8, color_mode := 0, palette_offset := 0,
    sprite_backbuffer := fun _ => 1, sprite_line_cost := fun _ => 100 }

/-- The same sprite with the consistent cached row cost
spriteLineCost 0 8 = 10. -/
def spriteOk : SpriteProps :=
  { spriteCex with sprite_line_cost := fun _ => 10 }

end X16

namespace X16

/-! # Theorems -/

/-- C1 (code evaluation at the failing input): with A = 0x01, carry
clear, operand m = 0xFF, binary ADC produces r16 = 0x100; the claim's
flag formulas give Z = 1 (low byte zero) and V = 0, but the code leaves
status = 0x61 = constant | overflow | carry: Z is computed from the full
16-bit sum (select_zero(0x100) = 0) and V from the mis-parenthesised
select_overflow macro (R ^ (A & R) ^ M has bit 7 set). -/
theorem adcx_flag_bug_eval :
    (adcx machAdcx 0x10).cpu.a = 0x00 ∧
    (adcx machAdcx 0x10).cpu.status = 0x61 ∧
    (adcx machAdcx 0x10).cpu.status &&& FLAG_ZERO = 0 ∧
    (adcx machAdcx 0x10).cpu.status &&& FLAG_OVERFLOW = FLAG_OVERFLOW := by
  decide

/-- C2 (code evaluation at the failing input): with A = 0x99, carry
clear, operand m = 0x01, decimal ADC's post-fixup 16-bit result is
0x100 (so the claim requires the carry flag set), but the code leaves
the status unchanged at 0x28 with Z, C, N, V all cleared: the
flag-update line of adcd is commented out in the source. -/
theorem adcd_flags_never_set_eval :
    (adcd machAdcd 0x10).cpu.a = 0x00 ∧
    (adcd machAdcd 0x10).cpu.status = 0x28 ∧
    (adcd machAdcd 0x10).cpu.status &&& FLAG_CARRY = 0 := by
  decide

/-- C3 counterexample: in the BRK/RTI scenario the status register after
the two steps is 0x34, not 0x24 as the claim states: BRK pushed
status | FLAG_BREAK = 0x34 and RTI restores the pulled byte verbatim. -/
theorem brk_rti_status_ne :
    (step6502 (step6502 machBrkRti)).cpu.status ≠ 0x24 := by
  decide

/-- C3 (amended): after step(); step() in the BRK/RTI scenario,
PC = 0x0202 and SP = 0xFF as claimed, but P = 0x34 (the pushed status
included the B flag, and RTI restores the pulled byte verbatim); the
constant bit is preserved, and inside the BRK handler the status is
0x24 (I and the constant bit set). -/
theorem brk_rti_cycle :
    (step6502 (step6502 machBrkRti)).cpu.pc = 0x0202 ∧
    (step6502 (step6502 machBrkRti)).cpu.sp = 0xFF ∧
    (step6502 (step6502 machBrkRti)).cpu.status = 0x34 ∧
    (step6502 (step6502 machBrkRti)).cpu.status &&& FLAG_CONSTANT = FLAG_CONSTANT ∧
    (step6502 machBrkRti).cpu.pc = 0x1234 ∧
    (step6502 machBrkRti).cpu.status = 0x24 ∧
    (step6502 machBrkRti).cpu.status &&& FLAG_INTERRUPT = FLAG_INTERRUPT := by
  decide

/-- C4 (code evaluation at the failing input): BBR0 $42, rel +0x10 at
0x0200 with the zero-page bit clear: the full 16-bit branch target is
0x0203 + 0x10 = 0x0213, but because cpu_state.ea is declared uint8_t
the stored scratch is 0x13 and PC ends at 0x0013 in the zero page. -/
theorem bbr0_target_truncated_eval :
    (step6502 machBbr).cpu.ea = 0x13 ∧
    (step6502 machBbr).cpu.pc = 0x0013 ∧
    (step6502 machBbr).cpu.pc ≠ 0x0213 := by
  decide

end X16

namespace X16

theorem pull8_mem (m : Machine) : (pull8 m).2.mem = m.mem := rfl

theorem pull8_sp (m : Machine) : (pull8 m).2.cpu.sp = (m.cpu.sp + 1) % 256 := rfl

theorem mod256_shift (s k : Nat) :
    ((s + 255) % 256 + 255 * k) % 256 = (s + 255 * (k + 1)) % 256 := by
  rw [Nat.mod_add_mod]
  congr 1
  ring

theorem mod256_distinct (s k : Nat) (h1 : 1 ≤ k) (h2 : k ≤ 255) :
    (s + 255 * k) % 256 ≠ s % 256 := by
  omega

theorem pullMany_spec (n : Nat) (m : Machine) (hsp : m.cpu.sp < 256) :
    (pullMany n m).1 =
      (List.range n).map (fun j => m.mem (0x100 + (m.cpu.sp + j + 1) % 256) % 256) ∧
    (pullMany n m).2.mem = m.mem ∧
    (pullMany n m).2.cpu.sp = (m.cpu.sp + n) % 256 := by
  induction n generalizing m with
  | zero => simp [pullMany, Nat.mod_eq_of_lt hsp]
  | succ n ih =>
    have hsp1 : (pull8 m).2.cpu.sp < 256 := by
      rw [pull8_sp]; exact Nat.mod_lt _ (by norm_num)
    obtain ⟨h1, h2, h3⟩ := ih (pull8 m).2 hsp1
    refine ⟨?_, ?_, ?_⟩
    · show (pull8 m).1 :: (pullMany n (pull8 m).2).1 = _
      rw [h1, List.range_succ_eq_map, List.map_cons, List.map_map]
      congr 1
      · show read6502 m (BASE_STACK + (m.cpu.sp + 1) % 256) = _
        have hm : (256 + (m.cpu.sp + 1) % 256) % 65536 = 256 + (m.cpu.sp + 1) % 256 := by
          omega
        simp only [read6502, BASE_STACK, hm]
      · apply List.map_congr_left
        intro j hj
        simp only [Function.comp, pull8_mem, pull8_sp, Nat.mod_add_mod]
        congr 3
        omega
    · show (pullMany n (pull8 m).2).2.mem = m.mem
      rw [h2, pull8_mem]
    · show (pullMany n (pull8 m).2).2.cpu.sp = _
      rw [h3, pull8_sp, Nat.mod_add_mod]
      congr 1
      omega

theorem pushMany_sp (L : List Nat) (m : Machine) (hsp : m.cpu.sp < 256) :
    (pushMany m L).cpu.sp = (m.cpu.sp + 255 * L.length) % 256 := by
  induction L generalizing m with
  | nil => simp [pushMany, Nat.mod_eq_of_lt hsp]
  | cons b L ih =>
    show (pushMany (push8 m b) L).cpu.sp = _
    rw [ih (push8 m b) (Nat.mod_lt _ (by norm_num))]
    show ((m.cpu.sp + 255) % 256 + 255 * L.length) % 256 = _
    rw [mod256_shift]
    simp [List.length_cons]

theorem pushMany_mem_preserved (L : List Nat) (m : Machine) (q : Nat)
    (hq : ∀ i < L.length, q ≠ 0x100 + (m.cpu.sp + 255 * i) % 256) :
    (pushMany m L).mem q = m.mem q := by
  induction L generalizing m with
  | nil => rfl
  | cons b L ih =>
    show (pushMany (push8 m b) L).mem q = _
    rw [ih]
    · show Function.update m.mem ((0x100 + m.cpu.sp % 256) % 65536) (b % 256) q = m.mem q
      have h0 := hq 0 (by simp)
      have hlt : 0x100 + m.cpu.sp % 256 < 65536 := by
        have := Nat.mod_lt m.cpu.sp (show 0 < 256 by norm_num)
        omega
      rw [Nat.mod_eq_of_lt hlt, Function.update_apply, if_neg]
      intro h
      exact h0 (by omega)
    · intro i hi
      have hmain := hq (i+1) (by simpa using Nat.succ_lt_succ hi)
      show q ≠ 0x100 + ((m.cpu.sp + 255) % 256 + 255 * i) % 256
      rw [mod256_shift]
      exact hmain

theorem pushMany_mem_written (L : List Nat) (m : Machine) (i : Nat)
    (hi : i < L.length) (hlen : L.length ≤ 256) :
    (pushMany m L).mem (0x100 + (m.cpu.sp + 255 * i) % 256) = L.getD i 0 % 256 := by
  induction L generalizing m i with
  | nil => simp at hi
  | cons b L ih =>
    show (pushMany (push8 m b) L).mem _ = _
    match i with
    | 0 =>
      rw [pushMany_mem_preserved]
      · show Function.update m.mem ((0x100 + m.cpu.sp % 256) % 65536) (b % 256) _ = _
        have hlt : 0x100 + m.cpu.sp % 256 < 65536 := by
          have := Nat.mod_lt m.cpu.sp (show 0 < 256 by norm_num)
          omega
        rw [Nat.mod_eq_of_lt hlt, Function.update_apply, if_pos (by omega)]
        simp
      · intro j hj
        show 0x100 + (m.cpu.sp + 255 * 0) % 256 ≠ 0x100 + ((m.cpu.sp + 255) % 256 + 255 * j) % 256
        rw [mod256_shift]
        have hj' : j + 1 ≤ 255 := by
          have : L.length ≤ 255 := by simp at hlen; omega
          omega
        have := mod256_distinct m.cpu.sp (j+1) (by omega) hj'
        simp only [Nat.mul_zero, Nat.add_zero]
        omega
    | j + 1 =>
      have hrec := ih (push8 m b) j (by simpa using Nat.lt_of_succ_lt_succ hi)
        (by simp at hlen ⊢; omega)
      show (pushMany (push8 m b) L).mem (0x100 + (m.cpu.sp + 255 * (j+1)) % 256) =
        (b :: L).getD (j+1) 0 % 256
      rw [List.getD_cons_succ, ← hrec]
      congr 2
      show (m.cpu.sp + 255 * (j+1)) % 256 = ((m.cpu.sp + 255) % 256 + 255 * j) % 256
      rw [mod256_shift]

end X16

namespace X16

/-- C9: pushing 256 bytes with push8 and then pulling 256 bytes with
pull8 returns them in LIFO order and restores SP; moreover a push with
SP = 0 stores at the stack base 0x0100 and wraps SP to 0xFF. -/
theorem stack_roundtrip (L : List Nat) (m : Machine)
    (hsp : m.cpu.sp < 256) (hlen : L.length = 256) (hb : ∀ v ∈ L, v < 256) :
    ((pullMany 256 (pushMany m L)).1 = L.reverse ∧
     (pullMany 256 (pushMany m L)).2.cpu.sp = m.cpu.sp) ∧
    (∀ (m2 : Machine) (v : Nat), m2.cpu.sp = 0 → v < 256 →
      (push8 m2 v).mem 0x100 = v ∧ (push8 m2 v).cpu.sp = 0xFF) := by
  have hsp2 : (pushMany m L).cpu.sp = m.cpu.sp := by
    rw [pushMany_sp L m hsp, hlen]
    omega
  obtain ⟨hp1, hp2, hp3⟩ := pullMany_spec 256 (pushMany m L) (by rw [hsp2]; exact hsp)
  refine ⟨⟨?_, ?_⟩, ?_⟩
  · rw [hp1, hsp2]
    apply List.ext_getElem
    · simp [hlen]
    intro i h1 h2
    have hi256 : i < 256 := by simpa using h1
    simp only [List.getElem_map, List.getElem_range]
    have haddr : (m.cpu.sp + i + 1) % 256 = (m.cpu.sp + 255 * (255 - i)) % 256 := by
      omega
    rw [haddr, pushMany_mem_written L m (255 - i) (by omega) (by omega)]
    have hlt : 255 - i < L.length := by omega
    rw [List.getD_eq_getElem L 0 hlt, List.getElem_reverse]
    have hmem : L[255 - i] ∈ L := List.getElem_mem hlt
    have : L[255 - i] < 256 := hb _ hmem
    have hidx : L.length - 1 - i = 255 - i := by omega
    simp only [hidx]
    omega
  · rw [hp3, hsp2]
    omega
  · intro m2 v h0 hv
    constructor
    · show Function.update m2.mem ((0x100 + m2.cpu.sp % 256) % 65536) (v % 256) 0x100 = v
      rw [h0]
      simp [Nat.mod_eq_of_lt hv]
    · show (m2.cpu.sp + 255) % 256 = 0xFF
      rw [h0]

/-- C9 witness: the round trip at the concrete machine machStack with
the constant list of 256 bytes 7. -/
theorem stack_roundtrip_witness :
    ((pullMany 256 (pushMany machStack (List.replicate 256 7))).1 =
        (List.replicate 256 7).reverse ∧
     (pullMany 256 (pushMany machStack (List.replicate 256 7))).2.cpu.sp =
        machStack.cpu.sp) ∧
    (∀ (m2 : Machine) (v : Nat), m2.cpu.sp = 0 → v < 256 →
      (push8 m2 v).mem 0x100 = v ∧ (push8 m2 v).cpu.sp = 0xFF) :=
  stack_roundtrip (List.replicate 256 7) machStack (by decide)
    (by rw [List.length_replicate])
    (by intro v hv; rw [List.eq_of_mem_replicate hv]; norm_num)

end X16

namespace X16

set_option maxHeartbeats 2000000 in
theorem autoincSetup_fields (vram : Nat → Nat) :
    (autoincSetup vram).io_addr 0 = 4096 ∧
    (autoincSetup vram).io_inc 0 = 2 ∧
    (autoincSetup vram).io_rddata 0 = vram 4096 ∧
    (autoincSetup vram).vram = vram := by
  refine ⟨?_, ?_, ?_, ?_⟩
  all_goals simp +decide [autoincSetup, videoWrite, videoSpaceRead, videoReset,
    Function.update]
  all_goals congr 1

theorem dataPortRead (s : VideoState) (A V : Nat) (hA : s.io_addr 0 = A)
    (hA2 : A < 4294967295) (hinc : s.io_inc 0 = 2) (hrd : s.io_rddata 0 = V) :
    dataReadVal s = V ∧
    (dataReadStep s).io_addr 0 = A + 1 ∧
    (dataReadStep s).io_inc 0 = 2 ∧
    (dataReadStep s).io_rddata 0 = s.vram ((A + 1) % 131072) ∧
    (dataReadStep s).vram = s.vram := by
  have hmod : (((A : Int) + 1) % 4294967296).toNat = A + 1 := by omega
  refine ⟨?_, ?_, ?_, ?_, ?_⟩ <;>
    simp +decide [dataReadVal, dataReadStep, videoRead, getAndIncAddress,
      videoSpaceRead, increments, hA, hinc, hrd, hmod, Function.update]

/-- C8: after setting the current cursor address to 0x1000 and its
increment code to 2 (step +1) via registers 0-2, five successive
non-debug data-port reads return vram[0x1000..0x1004] in order and
leave the cursor address at 0x1005. -/
theorem video_autoincrement (vram : Nat → Nat) :
    dataReadVal (autoincSetup vram) = vram 0x1000 ∧
    dataReadVal (dataReadStep (autoincSetup vram)) = vram 0x1001 ∧
    dataReadVal (dataReadStep (dataReadStep (autoincSetup vram))) = vram 0x1002 ∧
    dataReadVal (dataReadStep (dataReadStep (dataReadStep (autoincSetup vram))))
      = vram 0x1003 ∧
    dataReadVal (dataReadStep (dataReadStep (dataReadStep (dataReadStep
      (autoincSetup vram))))) = vram 0x1004 ∧
    (dataReadStep (dataReadStep (dataReadStep (dataReadStep (dataReadStep
      (autoincSetup vram)))))).io_addr 0 = 0x1005 := by
  obtain ⟨h1, h2, h3, h4⟩ := autoincSetup_fields vram
  obtain ⟨v1, a1, i1, d1, m1⟩ :=
    dataPortRead (autoincSetup vram) 4096 (vram 4096) h1 (by norm_num) h2 h3
  rw [h4] at d1 m1
  norm_num at a1 d1
  obtain ⟨v2, a2, i2, d2, m2⟩ :=
    dataPortRead _ 4097 (vram 4097) a1 (by norm_num) i1 d1
  rw [m1] at d2 m2
  norm_num at a2 d2
  obtain ⟨v3, a3, i3, d3, m3⟩ :=
    dataPortRead _ 4098 (vram 4098) a2 (by norm_num) i2 d2
  rw [m2] at d3 m3
  norm_num at a3 d3
  obtain ⟨v4, a4, i4, d4, m4⟩ :=
    dataPortRead _ 4099 (vram 4099) a3 (by norm_num) i3 d3
  rw [m3] at d4 m4
  norm_num at a4 d4
  obtain ⟨v5, a5, i5, d5, m5⟩ :=
    dataPortRead _ 4100 (vram 4100) a4 (by norm_num) i4 d4
  norm_num at a5
  exact ⟨v1, v2, v3, v4, v5, a5⟩

/-- C10: writing v to video register 7 acknowledges interrupts
write-one-to-clear: the new ISR is isr & ~v, i.e. exactly the ISR bits
set in v are cleared and all other bits are unchanged. -/
theorem videoWrite_reg7_ack (s : VideoState) (v : Nat) (hv : v < 256) :
    (videoWrite s 7 v).isr = s.isr &&& (v ^^^ 0xff) ∧
    ∀ i < 8, ((videoWrite s 7 v).isr).testBit i
      = (s.isr.testBit i && !(v.testBit i)) := by
  have h1 : (videoWrite s 7 v).isr = s.isr &&& (v ^^^ 0xff) := by
    simp +decide [videoWrite, Nat.mod_eq_of_lt hv]
  refine ⟨h1, ?_⟩
  intro i hi
  rw [h1, Nat.testBit_land, Nat.testBit_xor]
  have h255 : (255 : Nat).testBit i = true := by
    interval_cases i <;> decide
  rw [h255]
  simp

/-- C10 witness: acknowledging ISR value 5 at the reset state. -/
theorem videoWrite_reg7_ack_witness :
    (videoWrite (videoReset fun _ => 0) 7 5).isr
      = (videoReset fun _ => 0).isr &&& (5 ^^^ 0xff) ∧
    ∀ i < 8, ((videoWrite (videoReset fun _ => 0) 7 5).isr).testBit i
      = ((videoReset fun _ => 0).isr.testBit i && !((5 : Nat).testBit i)) :=
  videoWrite_reg7_ack (videoReset fun _ => 0) 5 (by norm_num)

end X16

namespace X16

/-! Pointwise evaluation of the shadow re-expansion updates. -/

theorem expand4At_0 (dst src : Nat → Nat) (w : Nat) :
    expand4At dst src w (2*w) = src w >>> 4 := by
  simp only [expand4At]
  rw [Function.update_noteq (by omega), Function.update_same]

theorem expand4At_1 (dst src : Nat → Nat) (w : Nat) :
    expand4At dst src w (2*w+1) = src w &&& 0xf := by
  simp only [expand4At]
  rw [Function.update_same]

theorem expand4At_ne (dst src : Nat → Nat) (w a : Nat)
    (h0 : a ≠ 2*w) (h1 : a ≠ 2*w+1) :
    expand4At dst src w a = dst a := by
  simp only [expand4At]
  rw [Function.update_noteq h1, Function.update_noteq h0]

theorem expand2At_0 (dst src : Nat → Nat) (w : Nat) :
    expand2At dst src w (4*w) = src w >>> 6 := by
  simp only [expand2At]
  rw [Function.update_noteq (by omega), Function.update_noteq (by omega),
    Function.update_noteq (by omega), Function.update_same]

theorem expand2At_1 (dst src : Nat → Nat) (w : Nat) :
    expand2At dst src w (4*w+1) = (src w >>> 4) &&& 0x3 := by
  simp only [expand2At]
  rw [Function.update_noteq (by omega), Function.update_noteq (by omega),
    Function.update_same]

theorem expand2At_2 (dst src : Nat → Nat) (w : Nat) :
    expand2At dst src w (4*w+2) = (src w >>> 2) &&& 0x3 := by
  simp only [expand2At]
  rw [Function.update_noteq (by omega), Function.update_same]

theorem expand2At_3 (dst src : Nat → Nat) (w : Nat) :
    expand2At dst src w (4*w+3) = src w &&& 0x3 := by
  simp only [expand2At]
  rw [Function.update_same]

theorem expand2At_ne (dst src : Nat → Nat) (w a : Nat)
    (h0 : a ≠ 4*w) (h1 : a ≠ 4*w+1) (h2 : a ≠ 4*w+2) (h3 : a ≠ 4*w+3) :
    expand2At dst src w a = dst a := by
  simp only [expand2At]
  rw [Function.update_noteq h3, Function.update_noteq h2,
    Function.update_noteq h1, Function.update_noteq h0]

theorem expand1At_0 (dst src : Nat → Nat) (w : Nat) :
    expand1At dst src w (8*w) = src w >>> 7 := by
  simp only [expand1At]
  rw [Function.update_noteq (by omega), Function.update_noteq (by omega),
    Function.update_noteq (by omega), Function.update_noteq (by omega),
    Function.update_noteq (by omega), Function.update_noteq (by omega),
    Function.update_noteq (by omega), Function.update_same]

theorem expand1At_1 (dst src : Nat → Nat) (w : Nat) :
    expand1At dst src w (8*w+1) = (src w >>> 6) &&& 0x1 := by
  simp only [expand1At]
  rw [Function.update_noteq (by omega), Function.update_noteq (by omega),
    Function.update_noteq (by omega), Function.update_noteq (by omega),
    Function.update_noteq (by omega), Function.update_noteq (by omega),
    Function.update_same]

theorem expand1At_2 (dst src : Nat → Nat) (w : Nat) :
    expand1At dst src w (8*w+2) = (src w >>> 5) &&& 0x1 := by
  simp only [expand1At]
  rw [Function.update_noteq (by omega), Function.update_noteq (by omega),
    Function.update_noteq (by omega), Function.update_noteq (by omega),
    Function.update_noteq (by omega), Function.update_same]

theorem expand1At_3 (dst src : Nat → Nat) (w : Nat) :
    expand1At dst src w (8*w+3) = (src w >>> 4) &&& 0x1 := by
  simp only [expand1At]
  rw [Function.update_noteq (by omega), Function.update_noteq (by omega),
    Function.update_noteq (by omega), Function.update_noteq (by omega),
    Function.update_same]

theorem expand1At_4 (dst src : Nat → Nat) (w : Nat) :
    expand1At dst src w (8*w+4) = (src w >>> 3) &&& 0x1 := by
  simp only [expand1At]
  rw [Function.update_noteq (by omega), Function.update_noteq (by omega),
    Function.update_noteq (by omega), Function.update_same]

theorem expand1At_5 (dst src : Nat → Nat) (w : Nat) :
    expand1At dst src w (8*w+5) = (src w >>> 2) &&& 0x1 := by
  simp only [expand1At]
  rw [Function.update_noteq (by omega), Function.update_noteq (by omega),
    Function.update_same]

theorem expand1At_6 (dst src : Nat → Nat) (w : Nat) :
    expand1At dst src w (8*w+6) = (src w >>> 1) &&& 0x1 := by
  simp only [expand1At]
  rw [Function.update_noteq (by omega), Function.update_same]

theorem expand1At_7 (dst src : Nat → Nat) (w : Nat) :
    expand1At dst src w (8*w+7) = src w &&& 0x1 := by
  simp only [expand1At]
  rw [Function.update_same]

theorem expand1At_ne (dst src : Nat → Nat) (w a : Nat)
    (h0 : a ≠ 8*w) (h1 : a ≠ 8*w+1) (h2 : a ≠ 8*w+2) (h3 : a ≠ 8*w+3)
    (h4 : a ≠ 8*w+4) (h5 : a ≠ 8*w+5) (h6 : a ≠ 8*w+6) (h7 : a ≠ 8*w+7) :
    expand1At dst src w a = dst a := by
  simp only [expand1At]
  rw [Function.update_noteq h7, Function.update_noteq h6,
    Function.update_noteq h5, Function.update_noteq h4,
    Function.update_noteq h3, Function.update_noteq h2,
    Function.update_noteq h1, Function.update_noteq h0]

/-- The vram and shadow fields of videoSpaceWrite, independent of which
mirror branch is taken. -/
theorem videoSpaceWrite_core (s : VideoState) (addr v : Nat) :
    (videoSpaceWrite s addr v).vram
      = Function.update s.vram (addr % 0x20000) (v % 256) ∧
    (videoSpaceWrite s addr v).vram4bpp
      = expand4At s.vram4bpp
          (Function.update s.vram (addr % 0x20000) (v % 256)) (addr % 0x20000) ∧
    (videoSpaceWrite s addr v).vram2bpp
      = expand2At s.vram2bpp
          (Function.update s.vram (addr % 0x20000) (v % 256)) (addr % 0x20000) ∧
    (videoSpaceWrite s addr v).vram1bpp
      = expand1At s.vram1bpp
          (Function.update s.vram (addr % 0x20000) (v % 256)) (addr % 0x20000) := by
  simp only [videoSpaceWrite]
  split_ifs <;> exact ⟨rfl, rfl, rfl, rfl⟩

end X16

namespace X16

theorem videoReset_vram (r : Nat → Nat) :
    (videoReset r).vram = fun i => r i % 256 := rfl

theorem videoReset_vram4bpp (r : Nat → Nat) :
    (videoReset r).vram4bpp = expand4All (fun i => r i % 256) := rfl

theorem videoReset_vram2bpp (r : Nat → Nat) :
    (videoReset r).vram2bpp = expand2All (fun i => r i % 256) := rfl

theorem videoReset_vram1bpp (r : Nat → Nat) :
    (videoReset r).vram1bpp = expand1All (fun i => r i % 256) := rfl

theorem expand4All_0 (src : Nat → Nat) (a : Nat) :
    expand4All src (2*a) = src a >>> 4 := by
  show (if (2*a) % 2 = 0 then src ((2*a)/2) >>> 4 else src ((2*a)/2) &&& 0xf) = _
  rw [if_pos (by omega)]
  have h1 : (2*a)/2 = a := by omega
  rw [h1]

theorem expand4All_1 (src : Nat → Nat) (a : Nat) :
    expand4All src (2*a+1) = src a &&& 0xf := by
  show (if (2*a+1) % 2 = 0 then src ((2*a+1)/2) >>> 4
    else src ((2*a+1)/2) &&& 0xf) = _
  rw [if_neg (by omega)]
  have h1 : (2*a+1)/2 = a := by omega
  rw [h1]

theorem expand2All_0 (src : Nat → Nat) (a : Nat) :
    expand2All src (4*a) = src a >>> 6 := by
  show (if (4*a) % 4 = 0 then src ((4*a)/4) >>> 6
    else (src ((4*a)/4) >>> (2 * (3 - (4*a) % 4))) &&& 0x3) = _
  rw [if_pos (by omega)]
  have h1 : (4*a)/4 = a := by omega
  rw [h1]

theorem expand2All_1 (src : Nat → Nat) (a : Nat) :
    expand2All src (4*a+1) = (src a >>> 4) &&& 0x3 := by
  show (if (4*a+1) % 4 = 0 then src ((4*a+1)/4) >>> 6
    else (src ((4*a+1)/4) >>> (2 * (3 - (4*a+1) % 4))) &&& 0x3) = _
  rw [if_neg (by omega)]
  have h1 : (4*a+1)/4 = a := by omega
  have h2 : 2 * (3 - (4*a+1) % 4) = 4 := by omega
  rw [h1, h2]

theorem expand2All_2 (src : Nat → Nat) (a : Nat) :
    expand2All src (4*a+2) = (src a >>> 2) &&& 0x3 := by
  show (if (4*a+2) % 4 = 0 then src ((4*a+2)/4) >>> 6
    else (src ((4*a+2)/4) >>> (2 * (3 - (4*a+2) % 4))) &&& 0x3) = _
  rw [if_neg (by omega)]
  have h1 : (4*a+2)/4 = a := by omega
  have h2 : 2 * (3 - (4*a+2) % 4) = 2 := by omega
  rw [h1, h2]

theorem expand2All_3 (src : Nat → Nat) (a : Nat) :
    expand2All src (4*a+3) = src a &&& 0x3 := by
  show (if (4*a+3) % 4 = 0 then src ((4*a+3)/4) >>> 6
    else (src ((4*a+3)/4) >>> (2 * (3 - (4*a+3) % 4))) &&& 0x3) = _
  rw [if_neg (by omega)]
  have h1 : (4*a+3)/4 = a := by omega
  have h2 : 2 * (3 - (4*a+3) % 4) = 0 := by omega
  rw [h1, h2]
  rfl

theorem expand1All_0 (src : Nat → Nat) (a : Nat) :
    expand1All src (8*a) = src a >>> 7 := by
  show (if (8*a) % 8 = 0 then src ((8*a)/8) >>> 7
    else (src ((8*a)/8) >>> (7 - (8*a) % 8)) &&& 0x1) = _
  rw [if_pos (by omega)]
  have h1 : (8*a)/8 = a := by omega
  rw [h1]

theorem expand1All_1 (src : Nat → Nat) (a : Nat) :
    expand1All src (8*a+1) = (src a >>> 6) &&& 0x1 := by
  show (if (8*a+1) % 8 = 0 then src ((8*a+1)/8) >>> 7
    else (src ((8*a+1)/8) >>> (7 - (8*a+1) % 8)) &&& 0x1) = _
  rw [if_neg (by omega)]
  have h1 : (8*a+1)/8 = a := by omega
  have h2 : 7 - (8*a+1) % 8 = 6 := by omega
  rw [h1, h2]

theorem expand1All_2 (src : Nat → Nat) (a : Nat) :
    expand1All src (8*a+2) = (src a >>> 5) &&& 0x1 := by
  show (if (8*a+2) % 8 = 0 then src ((8*a+2)/8) >>> 7
    else (src ((8*a+2)/8) >>> (7 - (8*a+2) % 8)) &&& 0x1) = _
  rw [if_neg (by omega)]
  have h1 : (8*a+2)/8 = a := by omega
  have h2 : 7 - (8*a+2) % 8 = 5 := by omega
  rw [h1, h2]

theorem expand1All_3 (src : Nat → Nat) (a : Nat) :
    expand1All src (8*a+3) = (src a >>> 4) &&& 0x1 := by
  show (if (8*a+3) % 8 = 0 then src ((8*a+3)/8) >>> 7
    else (src ((8*a+3)/8) >>> (7 - (8*a+3) % 8)) &&& 0x1) = _
  rw [if_neg (by omega)]
  have h1 : (8*a+3)/8 = a := by omega
  have h2 : 7 - (8*a+3) % 8 = 4 := by omega
  rw [h1, h2]

theorem expand1All_4 (src : Nat → Nat) (a : Nat) :
    expand1All src (8*a+4) = (src a >>> 3) &&& 0x1 := by
  show (if (8*a+4) % 8 = 0 then src ((8*a+4)/8) >>> 7
    else (src ((8*a+4)/8) >>> (7 - (8*a+4) % 8)) &&& 0x1) = _
  rw [if_neg (by omega)]
  have h1 : (8*a+4)/8 = a := by omega
  have h2 : 7 - (8*a+4) % 8 = 3 := by omega
  rw [h1, h2]

theorem expand1All_5 (src : Nat → Nat) (a : Nat) :
    expand1All src (8*a+5) = (src a >>> 2) &&& 0x1 := by
  show (if (8*a+5) % 8 = 0 then src ((8*a+5)/8) >>> 7
    else (src ((8*a+5)/8) >>> (7 - (8*a+5) % 8)) &&& 0x1) = _
  rw [if_neg (by omega)]
  have h1 : (8*a+5)/8 = a := by omega
  have h2 : 7 - (8*a+5) % 8 = 2 := by omega
  rw [h1, h2]

theorem expand1All_6 (src : Nat → Nat) (a : Nat) :
    expand1All src (8*a+6) = (src a >>> 1) &&& 0x1 := by
  show (if (8*a+6) % 8 = 0 then src ((8*a+6)/8) >>> 7
    else (src ((8*a+6)/8) >>> (7 - (8*a+6) % 8)) &&& 0x1) = _
  rw [if_neg (by omega)]
  have h1 : (8*a+6)/8 = a := by omega
  have h2 : 7 - (8*a+6) % 8 = 1 := by omega
  rw [h1, h2]

theorem expand1All_7 (src : Nat → Nat) (a : Nat) :
    expand1All src (8*a+7) = src a &&& 0x1 := by
  show (if (8*a+7) % 8 = 0 then src ((8*a+7)/8) >>> 7
    else (src ((8*a+7)/8) >>> (7 - (8*a+7) % 8)) &&& 0x1) = _
  rw [if_neg (by omega)]
  have h1 : (8*a+7)/8 = a := by omega
  have h2 : 7 - (8*a+7) % 8 = 0 := by omega
  rw [h1, h2]
  rfl

end X16

namespace X16

/-- C7: the shadow invariant holds after video_reset and is preserved
by every video_space_write: at each video address the 2/4/8 shadow
bytes are the bit-unpack of the VRAM byte, most significant field
first. -/
theorem shadow_consistency :
    (∀ (r : Nat → Nat), ShadowInv (videoReset r)) ∧
    (∀ (s : VideoState) (addr v : Nat),
      ShadowInv s → ShadowInv (videoSpaceWrite s addr v)) := by
  constructor
  · intro r a
    refine ⟨?_, ?_, ?_, ?_, ?_, ?_, ?_, ?_, ?_, ?_, ?_, ?_, ?_, ?_, ?_⟩
    · rw [videoReset_vram]
      show r a % 256 < 256
      omega
    · rw [videoReset_vram4bpp, videoReset_vram, expand4All_0]
    · rw [videoReset_vram4bpp, videoReset_vram, expand4All_1]
    · rw [videoReset_vram2bpp, videoReset_vram, expand2All_0]
    · rw [videoReset_vram2bpp, videoReset_vram, expand2All_1]
    · rw [videoReset_vram2bpp, videoReset_vram, expand2All_2]
    · rw [videoReset_vram2bpp, videoReset_vram, expand2All_3]
    · rw [videoReset_vram1bpp, videoReset_vram, expand1All_0]
    · rw [videoReset_vram1bpp, videoReset_vram, expand1All_1]
    · rw [videoReset_vram1bpp, videoReset_vram, expand1All_2]
    · rw [videoReset_vram1bpp, videoReset_vram, expand1All_3]
    · rw [videoReset_vram1bpp, videoReset_vram, expand1All_4]
    · rw [videoReset_vram1bpp, videoReset_vram, expand1All_5]
    · rw [videoReset_vram1bpp, videoReset_vram, expand1All_6]
    · rw [videoReset_vram1bpp, videoReset_vram, expand1All_7]
  · intro s addr v hInv a
    obtain ⟨ha0, ha4a, ha4b, ha2a, ha2b, ha2c, ha2d,
      ha1a, ha1b, ha1c, ha1d, ha1e, ha1f, ha1g, ha1h⟩ := hInv a
    obtain ⟨hv, h4, h2, h1⟩ := videoSpaceWrite_core s addr v
    by_cases haw : a = addr % 0x20000
    · subst haw
      refine ⟨?_, ?_, ?_, ?_, ?_, ?_, ?_, ?_, ?_, ?_, ?_, ?_, ?_, ?_, ?_⟩
      · rw [hv, Function.update_same]
        exact Nat.mod_lt _ (by norm_num)
      · rw [hv, h4, expand4At_0, Function.update_same]
      · rw [hv, h4, expand4At_1, Function.update_same]
      · rw [hv, h2, expand2At_0, Function.update_same]
      · rw [hv, h2, expand2At_1, Function.update_same]
      · rw [hv, h2, expand2At_2, Function.update_same]
      · rw [hv, h2, expand2At_3, Function.update_same]
      · rw [hv, h1, expand1At_0, Function.update_same]
      · rw [hv, h1, expand1At_1, Function.update_same]
      · rw [hv, h1, expand1At_2, Function.update_same]
      · rw [hv, h1, expand1At_3, Function.update_same]
      · rw [hv, h1, expand1At_4, Function.update_same]
      · rw [hv, h1, expand1At_5, Function.update_same]
      · rw [hv, h1, expand1At_6, Function.update_same]
      · rw [hv, h1, expand1At_7, Function.update_same]
    · refine ⟨?_, ?_, ?_, ?_, ?_, ?_, ?_, ?_, ?_, ?_, ?_, ?_, ?_, ?_, ?_⟩
      · rw [hv, Function.update_noteq haw]
        exact ha0
      · rw [hv, h4, expand4At_ne _ _ _ _ (by omega) (by omega),
          Function.update_noteq haw]
        exact ha4a
      · rw [hv, h4, expand4At_ne _ _ _ _ (by omega) (by omega),
          Function.update_noteq haw]
        exact ha4b
      · rw [hv, h2, expand2At_ne _ _ _ _ (by omega) (by omega) (by omega)
          (by omega), Function.update_noteq haw]
        exact ha2a
      · rw [hv, h2, expand2At_ne _ _ _ _ (by omega) (by omega) (by omega)
          (by omega), Function.update_noteq haw]
        exact ha2b
      · rw [hv, h2, expand2At_ne _ _ _ _ (by omega) (by omega) (by omega)
          (by omega), Function.update_noteq haw]
        exact ha2c
      · rw [hv, h2, expand2At_ne _ _ _ _ (by omega) (by omega) (by omega)
          (by omega), Function.update_noteq haw]
        exact ha2d
      · rw [hv, h1, expand1At_ne _ _ _ _ (by omega) (by omega) (by omega)
          (by omega) (by omega) (by omega) (by omega) (by omega),
          Function.update_noteq haw]
        exact ha1a
      · rw [hv, h1, expand1At_ne _ _ _ _ (by omega) (by omega) (by omega)
          (by omega) (by omega) (by omega) (by omega) (by omega),
          Function.update_noteq haw]
        exact ha1b
      · rw [hv, h1, expand1At_ne _ _ _ _ (by omega) (by omega) (by omega)
          (by omega) (by omega) (by omega) (by omega) (by omega),
          Function.update_noteq haw]
        exact ha1c
      · rw [hv, h1, expand1At_ne _ _ _ _ (by omega) (by omega) (by omega)
          (by omega) (by omega) (by omega) (by omega) (by omega),
          Function.update_noteq haw]
        exact ha1d
      · rw [hv, h1, expand1At_ne _ _ _ _ (by omega) (by omega) (by omega)
          (by omega) (by omega) (by omega) (by omega) (by omega),
          Function.update_noteq haw]
        exact ha1e
      · rw [hv, h1, expand1At_ne _ _ _ _ (by omega) (by omega) (by omega)
          (by omega) (by omega) (by omega) (by omega) (by omega),
          Function.update_noteq haw]
        exact ha1f
      · rw [hv, h1, expand1At_ne _ _ _ _ (by omega) (by omega) (by omega)
          (by omega) (by omega) (by omega) (by omega) (by omega),
          Function.update_noteq haw]
        exact ha1g
      · rw [hv, h1, expand1At_ne _ _ _ _ (by omega) (by omega) (by omega)
          (by omega) (by omega) (by omega) (by omega) (by omega),
          Function.update_noteq haw]
        exact ha1h

/-- C7 witness: the invariant at the zero-stream reset state and its
preservation across a concrete write. -/
theorem shadow_consistency_witness :
    ShadowInv (videoReset (fun _ => 0)) ∧
    ShadowInv (videoSpaceWrite (videoReset (fun _ => 0)) 5 0xA7) :=
  ⟨shadow_consistency.1 (fun _ => 0),
   shadow_consistency.2 (videoReset (fun _ => 0)) 5 0xA7
     (shadow_consistency.1 (fun _ => 0))⟩

end X16

namespace X16

/-- C6 counterexample: a video_space_write at 0x20000 (greater than
0x1FFFF) is not dropped: it wraps and overwrites video RAM at address
0, so video RAM does not stay unchanged. -/
theorem video_space_write_not_dropped :
    (videoSpaceWrite (videoReset fun _ => 0) 0x20000 7).vram 0 = 7 ∧
    (videoReset fun _ => 0).vram 0 = 0 := by
  decide

/-- C6 (amended): a memory-bus write decoded to the ROM window
(address mod 2^16 at or above 0xC000) is dropped, leaving the whole
machine unchanged; a video_space_write above 0x1FFFF is not dropped
but wraps modulo 0x20000 into video RAM, while the palette,
sprite-descriptor and PSG mirrors stay unchanged because the unmasked
address lies outside their windows. -/
theorem unmapped_write_behavior :
    (∀ (b : Bus) (addr v : Nat), 0xC000 ≤ addr % 65536 →
      busWrite6502 b addr v = b) ∧
    (∀ (s : VideoState) (addr v : Nat), 0x1FFFF < addr →
      (videoSpaceWrite s addr v).vram
        = Function.update s.vram (addr % 0x20000) (v % 256) ∧
      (videoSpaceWrite s addr v).palette = s.palette ∧
      (videoSpaceWrite s addr v).sprite_data = s.sprite_data ∧
      (videoSpaceWrite s addr v).psgWrites = s.psgWrites) := by
  constructor
  · intro b addr v h
    have hhi : 0xC0 ≤ (addr % 65536) >>> 8 := by
      rw [Nat.shiftRight_eq_div_pow]
      norm_num
      omega
    have hmap : memory_map_hi ((addr % 65536) >>> 8) = 11 := by
      simp only [memory_map_hi]
      rw [if_neg (by omega), if_neg (by omega), if_neg (by omega)]
    simp only [busWrite6502, hmap]
    norm_num
  · intro s addr v h
    have c1 : ¬ (ADDR_PSG_START ≤ addr ∧ addr < ADDR_PSG_END) := by
      simp only [ADDR_PSG_START, ADDR_PSG_END, not_and, not_lt]
      omega
    have c2 : ¬ (ADDR_PALETTE_START ≤ addr ∧ addr < ADDR_PALETTE_END) := by
      simp only [ADDR_PALETTE_START, ADDR_PALETTE_END, not_and, not_lt]
      omega
    have c3 : ¬ (ADDR_SPRDATA_START ≤ addr ∧ addr < ADDR_SPRDATA_END) := by
      simp only [ADDR_SPRDATA_START, ADDR_SPRDATA_END, not_and, not_lt]
      omega
    simp only [videoSpaceWrite, c1, c2, c3, if_false]
    exact ⟨trivial, trivial, trivial, trivial⟩

/-- C6 witness: a concrete ROM-window bus write and a concrete
out-of-range video-space write. -/
theorem unmapped_write_behavior_witness :
    busWrite6502 bus0 0xC123 7 = bus0 ∧
    ((videoSpaceWrite (videoReset fun _ => 0) 0x20000 9).vram
        = Function.update (videoReset fun _ => 0).vram (0x20000 % 0x20000) (9 % 256) ∧
     (videoSpaceWrite (videoReset fun _ => 0) 0x20000 9).palette
        = (videoReset fun _ => 0).palette ∧
     (videoSpaceWrite (videoReset fun _ => 0) 0x20000 9).sprite_data
        = (videoReset fun _ => 0).sprite_data ∧
     (videoSpaceWrite (videoReset fun _ => 0) 0x20000 9).psgWrites
        = (videoReset fun _ => 0).psgWrites) :=
  ⟨unmapped_write_behavior.1 bus0 0xC123 7 (by norm_num),
   unmapped_write_behavior.2 (videoReset fun _ => 0) 0x20000 9 (by norm_num)⟩

end X16

namespace X16

theorem pixelCost_0 (x : Nat) : pixelCost 0 x = if x % 8 = 0 then 2 else 1 := by
  have h := Nat.and_pow_two_sub_one_eq_mod x 3
  norm_num at h
  have hsh : (7 : Nat) >>> 0 = 7 := by decide
  simp only [pixelCost, hsh, h]
  by_cases hx : x % 8 = 0 <;> simp [hx]

theorem pixelCost_1 (x : Nat) : pixelCost 1 x = if x % 4 = 0 then 2 else 1 := by
  have h := Nat.and_pow_two_sub_one_eq_mod x 2
  norm_num at h
  have hsh : (7 : Nat) >>> 1 = 3 := by decide
  simp only [pixelCost, hsh, h]
  by_cases hx : x % 4 = 0 <;> simp [hx]

theorem costSum_0 (w : Nat) :
    ((List.range w).map (pixelCost 0)).sum = w + (w + 7) / 8 := by
  induction w with
  | zero => simp
  | succ w ih =>
    rw [List.range_succ, List.map_append, List.sum_append, ih]
    simp only [List.map_cons, List.map_nil, List.sum_cons, List.sum_nil,
      pixelCost_0]
    by_cases h : w % 8 = 0 <;> simp [h] <;> omega

theorem costSum_1 (w : Nat) :
    ((List.range w).map (pixelCost 1)).sum = w + (w + 3) / 4 := by
  induction w with
  | zero => simp
  | succ w ih =>
    rw [List.range_succ, List.map_append, List.sum_append, ih]
    simp only [List.map_cons, List.map_nil, List.sum_cons, List.sum_nil,
      pixelCost_1]
    by_cases h : w % 4 = 0 <;> simp [h] <;> omega

theorem drawPixel_col_self (p : SpriteProps) (ls : SpriteLine) (lx c : Nat) :
    (drawPixel p ls lx c).col lx =
      if 0 < c ∧ ls.z lx < p.sprite_zdepth
      then (c + p.palette_offset) % 256 else ls.col lx := by
  simp only [drawPixel]
  by_cases h1 : 0 < c
  · by_cases h2 : ls.z lx < p.sprite_zdepth <;>
      simp [h1, h2, Function.update_same]
  · simp [h1]

theorem drawPixel_col_other (p : SpriteProps) (ls : SpriteLine) (lx c q : Nat)
    (h : q ≠ lx) : (drawPixel p ls lx c).col q = ls.col q := by
  simp only [drawPixel]
  split_ifs <;> simp [Function.update_noteq h]

theorem drawPixel_z_other (p : SpriteProps) (ls : SpriteLine) (lx c q : Nat)
    (h : q ≠ lx) : (drawPixel p ls lx c).z q = ls.z q := by
  simp only [drawPixel]
  split_ifs <;> simp [Function.update_noteq h]

theorem fullLoop_untouched (p : SpriteProps) (e xmax : Nat) (xs : List Nat)
    (ls : SpriteLine) (q : Nat) (h : ∀ x ∈ xs, lineXof p x ≠ q) :
    (spriteFullLoop p e xmax xs ls).col q = ls.col q ∧
    (spriteFullLoop p e xmax xs ls).z q = ls.z q := by
  induction xs generalizing ls with
  | nil => exact ⟨rfl, rfl⟩
  | cons x xs ih =>
    have hx := h x (by simp)
    have hrest : ∀ x' ∈ xs, lineXof p x' ≠ q := fun x' hx' => h x' (by simp [hx'])
    simp only [spriteFullLoop]
    split
    · exact ih ls hrest
    · obtain ⟨hc, hz⟩ := ih (drawPixel p ls (lineXof p x) (spritePixel p e x)) hrest
      rw [hc, hz, drawPixel_col_other _ _ _ _ _ (Ne.symm hx),
        drawPixel_z_other _ _ _ _ _ (Ne.symm hx)]
      exact ⟨rfl, rfl⟩

theorem fullLoop_append (p : SpriteProps) (e xmax : Nat) (xs ys : List Nat)
    (ls : SpriteLine) :
    spriteFullLoop p e xmax (xs ++ ys) ls =
      spriteFullLoop p e xmax ys (spriteFullLoop p e xmax xs ls) := by
  induction xs generalizing ls with
  | nil => rfl
  | cons x xs ih =>
    simp only [List.cons_append, spriteFullLoop]
    split
    · exact ih ls
    · exact ih _

theorem lineXof_inj (p : SpriteProps) (x1 x2 : Nat) (h1 : x1 < 65536)
    (h2 : x2 < 65536) (heq : lineXof p x1 = lineXof p x2) : x1 = x2 := by
  simp only [lineXof] at heq
  omega

theorem fullLoop_range_col (p : SpriteProps) (e xmax x : Nat)
    (hlx : lineXof p x ≤ xmax) (ls : SpriteLine) :
    ∀ w, w ≤ 65536 → x < w →
    (spriteFullLoop p e xmax (List.range w) ls).col (lineXof p x)
      = if 0 < spritePixel p e x ∧ ls.z (lineXof p x) < p.sprite_zdepth
        then (spritePixel p e x + p.palette_offset) % 256
        else ls.col (lineXof p x) := by
  intro w
  induction w with
  | zero => omega
  | succ w ih =>
    intro hw hx
    rw [List.range_succ, fullLoop_append]
    by_cases hxw : x = w
    · subst hxw
      obtain ⟨hc, hz⟩ := fullLoop_untouched p e xmax (List.range x) ls
        (lineXof p x) (by
          intro x' hx'
          have hx'w : x' < x := List.mem_range.mp hx'
          intro heq
          have := lineXof_inj p x' x (by omega) (by omega) heq
          omega)
      simp only [spriteFullLoop]
      rw [if_neg (by omega)]
      show (drawPixel _ _ _ _).col _ = _
      rw [drawPixel_col_self, hc, hz]
    · have hxlt : x < w := by omega
      have hne : lineXof p w ≠ lineXof p x := by
        intro heq
        have := lineXof_inj p w x (by omega) (by omega) heq
        omega
      simp only [spriteFullLoop]
      split
      · exact ih (by omega) hxlt
      · show (drawPixel _ _ _ _).col _ = _
        rw [drawPixel_col_other _ _ _ _ _ (Ne.symm hne)]
        exact ih (by omega) hxlt

theorem budgetLoop_nonneg (p : SpriteProps) (e xmax : Nat) (xs : List Nat) :
    ∀ (ls : SpriteLine) (b : Int),
      ((xs.map (pixelCost p.color_mode)).sum : Int) ≤ b →
      0 ≤ (spriteBudgetLoop p e xmax xs ls b).2 := by
  induction xs with
  | nil =>
    intro ls b h
    simp only [List.map_nil, List.sum_nil, Nat.cast_zero] at h
    simpa [spriteBudgetLoop] using h
  | cons x xs ih =>
    intro ls b h
    simp only [List.map_cons, List.sum_cons, Nat.cast_add] at h
    have hs : (0 : Int) ≤ ((xs.map (pixelCost p.color_mode)).sum : Int) :=
      Int.natCast_nonneg _
    simp only [spriteBudgetLoop]
    split
    · apply ih
      omega
    · split
    -- after the decrement the break returns b1, which is still at least
    -- the remaining pixel costs, hence nonnegative
      · omega
      · apply ih
        omega

end X16

namespace X16

/-- C5 counterexample: the claim's word-fetch cadence and fallback
direction are both false on the code.  For a 4bpp sprite of width 8
the cached cost is 10 (extra tick every 8 pixels), not the claimed 11
(every 4 pixels); and with cached row cost 100 against remaining
budget 5 the renderer does not abort midway: it draws the whole row
(the last pixel is written) and drives the budget to -95. -/
theorem sprite_budget_claim_false :
    spriteLineCost 0 8 ≠ spriteLineCostClaim 0 8 ∧
    (renderSpriteFastOne 0 639 (zeroSpriteLine, 5) spriteCex).2 = -95 ∧
    (renderSpriteFastOne 0 639 (zeroSpriteLine, 5) spriteCex).1.col 7 = 1 := by
  decide

/-- C5 (amended): the cached per-row sprite cost is 1 for the lookup
plus one tick per pixel plus one tick per fetched 32-bit word, i.e.
an extra tick every 8 pixels in 4bpp mode and every 4 pixels in 8bpp
mode, so the row cost is 1 + w + ceil(w/8) resp. 1 + w + ceil(w/4);
when the cached cost exceeds the remaining budget the renderer draws
the sprite line in full with no per-pixel tracking (every in-range
opaque pixel whose z-depth wins is written) and subtracts the whole
cached cost, possibly driving the budget negative; per-pixel tracking
applies only when the cached cost fits the budget, and then the
budget never drops below zero. -/
theorem sprite_budget_semantics :
    (∀ w, spriteLineCost 0 w = 1 + w + (w + 7) / 8 ∧
          spriteLineCost 1 w = 1 + w + (w + 3) / 4) ∧
    (∀ (p : SpriteProps) (ls : SpriteLine) (b : Int) (y x xmax : Nat),
      p.sprite_zdepth ≠ 0 →
      p.sprite_y ≤ (y : Int) →
      (y : Int) < p.sprite_y + (p.sprite_height : Int) →
      b < (p.sprite_line_cost (((y : Int) - p.sprite_y).toNat) : Int) →
      p.sprite_width ≤ 65536 →
      x < p.sprite_width →
      lineXof p x ≤ xmax →
      (renderSpriteFastOne y xmax (ls, b) p).2
        = b - (p.sprite_line_cost (((y : Int) - p.sprite_y).toNat) : Int) ∧
      (renderSpriteFastOne y xmax (ls, b) p).1.col (lineXof p x)
        = if 0 < spritePixel p (((y : Int) - p.sprite_y).toNat) x ∧
             ls.z (lineXof p x) < p.sprite_zdepth
          then (spritePixel p (((y : Int) - p.sprite_y).toNat) x
                  + p.palette_offset) % 256
          else ls.col (lineXof p x)) ∧
    (∀ (p : SpriteProps) (ls : SpriteLine) (b : Int) (y xmax : Nat),
      p.sprite_zdepth ≠ 0 →
      p.sprite_y ≤ (y : Int) →
      (y : Int) < p.sprite_y + (p.sprite_height : Int) →
      p.sprite_line_cost (((y : Int) - p.sprite_y).toNat)
        = spriteLineCost p.color_mode p.sprite_width →
      (p.sprite_line_cost (((y : Int) - p.sprite_y).toNat) : Int) ≤ b →
      0 ≤ (renderSpriteFastOne y xmax (ls, b) p).2) := by
  refine ⟨?_, ?_, ?_⟩
  · intro w
    constructor
    · rw [spriteLineCost, costSum_0]
      omega
    · rw [spriteLineCost, costSum_1]
      omega
  · intro p ls b y x xmax hz hy1 hy2 hb hw hx hlx
    have hcond : ¬ ((y : Int) < p.sprite_y ∨
        p.sprite_y + (p.sprite_height : Int) ≤ (y : Int)) := by
      push_neg
      exact ⟨hy1, hy2⟩
    refine ⟨?_, ?_⟩ <;>
      simp only [renderSpriteFastOne, if_neg hz, if_neg hcond, if_pos hb]
    exact fullLoop_range_col p _ xmax x hlx ls p.sprite_width hw hx
  · intro p ls b y xmax hz hy1 hy2 hcost hb
    have hcond : ¬ ((y : Int) < p.sprite_y ∨
        p.sprite_y + (p.sprite_height : Int) ≤ (y : Int)) := by
      push_neg
      exact ⟨hy1, hy2⟩
    have hnb : ¬ (b < (p.sprite_line_cost (((y : Int) - p.sprite_y).toNat) : Int)) := by
      omega
    simp only [renderSpriteFastOne, if_neg hz, if_neg hcond, if_neg hnb]
    apply budgetLoop_nonneg
    rw [hcost, spriteLineCost] at hb
    push_cast at hb ⊢
    omega

/-- C5 witness: the amended statement at concrete inputs: the cost
formulas at width 8, the full-draw branch for spriteCex (cached cost
100, budget 5) at pixel 0, and the budget-tracking branch for spriteOk
(cached cost 10 = spriteLineCost 0 8, budget 20). -/
theorem sprite_budget_semantics_witness :
    (spriteLineCost 0 8 = 1 + 8 + (8 + 7) / 8 ∧
     spriteLineCost 1 8 = 1 + 8 + (8 + 3) / 4) ∧
    ((renderSpriteFastOne 0 639 (zeroSpriteLine, 5) spriteCex).2
        = 5 - (spriteCex.sprite_line_cost
            (((0 : Int) - spriteCex.sprite_y).toNat) : Int) ∧
     (renderSpriteFastOne 0 639 (zeroSpriteLine, 5) spriteCex).1.col
          (lineXof spriteCex 0)
        = if 0 < spritePixel spriteCex (((0 : Int) - spriteCex.sprite_y).toNat) 0 ∧
             zeroSpriteLine.z (lineXof spriteCex 0) < spriteCex.sprite_zdepth
          then (spritePixel spriteCex (((0 : Int) - spriteCex.sprite_y).toNat) 0
                  + spriteCex.palette_offset) % 256
          else zeroSpriteLine.col (lineXof spriteCex 0)) ∧
    0 ≤ (renderSpriteFastOne 0 639 (zeroSpriteLine, 20) spriteOk).2 :=
  ⟨sprite_budget_semantics.1 8,
   sprite_budget_semantics.2.1 spriteCex zeroSpriteLine 5 0 0 639
     (by decide) (by decide) (by decide) (by decide) (by decide) (by decide)
     (by decide),
   sprite_budget_semantics.2.2 spriteOk zeroSpriteLine 20 0 639
     (by decide) (by decide) (by decide) (by decide) (by decide)⟩

end X16
